import Mathlib

/-!
Verification of the VIDNet-Pytorch-Reimplementation repository.

Shallow embedding of the parts of the code the claims are about:
* `misc/config.py` : the `phase` enum, the `cfg` configuration object and
  `db_read_sequences`;
* `src/dataloader/davis2017.py` : `DAVISLoader.__init__`, `get_raw_sample`,
  `get_raw_sample_clip`, `sequence_id_to_name`, `iternames`;
* `train.py` : `parse_args`, `prepare_logger` and the `Trainer` construction
  in `train`.

Python exceptions are modelled with `Except PyErr`; the file system (the
db-info YAML file, directory existence, the sorted file listings of the
sequence and mask directories) is an explicit input.  File basenames are
integer frame numbers, so a frame file is modelled by the natural number
that `int(osp.splitext(osp.basename(f))[0])` parses from it.
-/

/-- The Python exceptions raised (or named) by the embedded code. -/
inductive PyErr where
  | typeError
  | nameError
  | keyError
  | indexError
  | fileNotFoundError
  | valueError
  | assertionError
  | exception
  | zeroDivisionError
  | notImplementedError
deriving DecidableEq, Repr

/-- A Python subscript `xs[i]` on a list: `IndexError` when out of range
(negative indices never arise in the embedded claims). -/
def pyIndex {α : Type} (xs : List α) (i : Nat) : Except PyErr α :=
  match xs[i]? with
  | some x => .ok x
  | none => .error .indexError

/-- Python truthiness of an optional string (`None` and `""` are falsy). -/
def truthyStr (o : Option String) : Bool :=
  match o with
  | none => false
  | some s => !(s == "")

/-- `int(s)` on a decimal string (the embedded code only applies it to
numeric strings such as "2016" and "2017"). -/
def pyInt (s : String) : Nat :=
  s.data.foldl (fun acc c => acc * 10 + (c.toNat - 48)) 0

instance {ε α : Type} [DecidableEq ε] [DecidableEq α] : DecidableEq (Except ε α) := by
  intro a b
  cases a <;> cases b
  case error.error e f =>
    exact decidable_of_iff (e = f) (by simp)
  case error.ok e x =>
    exact isFalse (by simp)
  case ok.error x e =>
    exact isFalse (by simp)
  case ok.ok x y =>
    exact decidable_of_iff (x = y) (by simp)

/-- A Python `dict(zip(ks, range(len(ks))))` mapping each key to its index;
on duplicate keys the last binding wins, which the reversed lookup below
implements. -/
def pyDict (ks : List String) : List (String × Nat) :=
  (ks.zip (List.range ks.length))

/-- `d[k]` on a dict built by `pyDict`: `KeyError` when the key is absent. -/
def pyDictGet (d : List (String × Nat)) (k : String) : Except PyErr Nat :=
  match d.reverse.find? (fun p => p.1 == k) with
  | some p => .ok p.2
  | none => .error .keyError

/-- A consumed-or-partially-consumed Python iterator (here: the `filter`
objects returned by `db_read_sequences`), modelled by its remaining
elements.  A `filter` object defines no `__getitem__`, so subscripting it
raises `TypeError` whatever its contents. -/
structure PyFilter (α : Type) where
  remaining : List α
deriving DecidableEq, Repr

/-- Subscripting a Python `filter` object raises
`TypeError: 'filter' object is not subscriptable`. -/
def PyFilter.subscript {α : Type} (_it : PyFilter α) (_i : Nat) : Except PyErr α :=
  .error .typeError

/-! ## misc/config.py -/

/-- The `phase` enum of `misc/config.py`. -/
inductive Phase where
  | TRAIN
  | VAL
  | TESTDEV
  | TRAINVAL
deriving DecidableEq, Repr

/-- The string value of each `phase` member ("train", "val", "test-dev",
"train-val"); in the db-info YAML file the `set` attribute is stored as
this string. -/
def phaseStr : Phase → String
  | .TRAIN => "train"
  | .VAL => "val"
  | .TESTDEV => "test-dev"
  | .TRAINVAL => "train-val"

/-- One sequence record of the db-info YAML file (`db_read_info().sequences`):
its name, its year (`int(s.year)`) and its set. -/
structure DbSeq where
  name : String
  year : Nat
  set : Phase
deriving DecidableEq, Repr

/-- `osp.join(a, b)` for a relative second component. -/
def ospJoin (a b : String) : String := a ++ "/" ++ b

/-- The `__C.PATH` edict of `misc/config.py`. -/
structure PathConfig where
  ROOT : String
  DATA : String
  ORIGINAL : String
  SEQUENCES2 : String
  SEQUENCES : String
  FLOW : String
  ANNOTATIONS : String
  PALETTE : String
deriving DecidableEq, Repr

/-- The global configuration object `cfg` (= `__C`) of `misc/config.py`.
`FILES.DB_INFO` is flattened into `DB_INFO`; `SEQUENCES` is the dict built
at module load from `db_read_sequences()`; the numpy palette array is not
modelled. -/
structure Config where
  N_JOBS : Nat
  RESOLUTION : String
  YEAR : String
  PHASE : Phase
  MULTIOBJECT : Bool
  PATH : PathConfig
  DB_INFO : String
  SEQUENCES : List (String × DbSeq)
  EVAL_METRICS : List String
  EVAL_STATISTICS : List String
deriving DecidableEq, Repr

/-- `db_read_sequences(year, db_phase)` of `misc/config.py`, at the argument
types named by the spec (a year number and a `phase` member).  `dbInfo` is
the sequence list of the db-info file and `isdir` the directory-existence
predicate of the file system; `seqPath` is `__C.PATH.SEQUENCES`.  The
returned list is the contents of the `filter` iterator the source returns. -/
def db_read_sequences (dbInfo : List DbSeq) (isdir : String → Bool) (seqPath : String)
    (year : Option Nat) (db_phase : Option Phase) : List DbSeq :=
  let s1 := match year with
    | none => dbInfo
    | some y => dbInfo.filter (fun s => s.year ≤ y)
  match db_phase with
  | none => s1
  | some p =>
    if p == Phase.TRAINVAL then
      s1.filter (fun s => s.set == Phase.VAL || s.set == Phase.TRAIN)
    else
      s1.filter (fun s => s.set == p && isdir (ospJoin seqPath s.name))

/-- `db_read_sequences(args.year, self._phase)` as `DAVISLoader.__init__`
actually calls it: `db_phase` is the split *string*, so the
`db_phase == phase.TRAINVAL` test of the source is always false (a string
never equals an enum member) and the remaining filter compares the YAML
`set` string (`phaseStr s.set`) with the split string. -/
def db_read_sequences_str (dbInfo : List DbSeq) (isdir : String → Bool) (seqPath : String)
    (year : Option Nat) (db_phase : Option String) : List DbSeq :=
  let s1 := match year with
    | none => dbInfo
    | some y => dbInfo.filter (fun s => s.year ≤ y)
  match db_phase with
  | none => s1
  | some p =>
    s1.filter (fun s => phaseStr s.set == p && isdir (ospJoin seqPath s.name))

/-! ## src/dataloader/davis2017.py : data model

`base.py` (the classes `Sequence`, `Annotation`, `SequenceClip_simple`,
`AnnotationClip_simple`) is not part of the given sources; the structures
below are modelled from the spec. -/

/-- The file-system state a `DAVISLoader` reads: the db-info YAML sequence
list, directory existence, and for each sequence name the sorted integer
frame numbers of its image files (`*.png` under `cfg.PATH.SEQUENCES/name`)
and of its mask files (under `cfg.PATH.ANNOTATIONS/name`). -/
structure FileSystem where
  dbInfo : List DbSeq
  isdir : String → Bool
  imgFiles : String → List Nat
  annFiles : String → List Nat

/-- Modelled from the spec: `base.py` is missing; per the spec a `Sequence`
is a list of RGB-frame image filenames of one video, so it is modelled by
the sequence name and the sorted integer frame numbers of its files. -/
structure Sequence where
  name : String
  files : List Nat
deriving DecidableEq, Repr

/-- Modelled from the spec: `base.py` is missing; an `Annotation` (source
class name) holds the per-pixel ground-truth mask files of one video, so it
is modelled by the sequence name and the sorted integer frame numbers of
its mask files. -/
structure Annot where
  name : String
  files : List Nat
deriving DecidableEq, Repr

/-- Modelled from the spec: `base.py` is missing; a `SequenceClip_simple`
wraps a whole `Sequence` together with the starting frame of the clip, and
its `_numframes` is the frame count of the wrapped sequence. -/
structure SequenceClip_simple where
  seq : Sequence
  starting_frame : Nat
deriving DecidableEq, Repr

/-- `_numframes` of a `SequenceClip_simple` (frame count of the wrapped
sequence). -/
def SequenceClip_simple.numframes (c : SequenceClip_simple) : Nat :=
  c.seq.files.length

/-- Modelled from the spec: `base.py` is missing; an `AnnotationClip_simple`
(source class name) wraps an `Annotation` together with the starting frame
of the clip. -/
structure AnnotClip_simple where
  annot : Annot
  starting_frame : Nat
deriving DecidableEq, Repr

/-- The starting frames appended for one sequence by the clip loop of
`DAVISLoader.__init__` (`davis2017.py` lines 161-174 and 193-207): the
frame number of `files[0]`, then, with `num_clips = int(num_frames / L)`,
the frame numbers of `files[(idx+1)*L]` for `idx in range(num_clips - 1)`. -/
def clip_starts (files : List Nat) (L : Nat) : List Nat :=
  files.getD 0 0 ::
    (List.range (files.length / L - 1)).map (fun idx => files.getD ((idx + 1) * L) 0)

/-- The clip loop with its Python failure modes: `files[0]` raises
`IndexError` on an empty listing, and `num_frames / L` raises
`ZeroDivisionError` when `L = 0`; otherwise every index it uses is in
range and it produces `clip_starts files L`. -/
def clip_startsE (files : List Nat) (L : Nat) : Except PyErr (List Nat) :=
  if files.isEmpty then .error .indexError
  else if L == 0 then .error .zeroDivisionError
  else .ok (clip_starts files L)

/-- A Python `for` loop over `xs` whose body can raise: it stops at the
first exception, otherwise collects the per-element results. -/
def forE {α β : Type} (f : α → Except PyErr β) : List α → Except PyErr (List β)
  | [] => .ok []
  | x :: xs =>
    match f x with
    | .error e => .error e
    | .ok y =>
      match forE f xs with
      | .error e => .error e
      | .ok ys => .ok (y :: ys)

/-- The `DAVISLoader` object state after `__init__` (fields not used by any
claim - the transforms, lmdb handles and color palette - are omitted). -/
structure DAVISLoader where
  _year : String
  _phase : String
  _length_clip : Nat
  use_prev_mask : Bool
  sequences : List Sequence
  annotations : List Annot
  sequence_clips : List SequenceClip_simple
  annotation_clips : List AnnotClip_simple
  _keys : List (String × Nat)
  _keys_clips : List (String × Nat)
  _db_sequences : PyFilter DbSeq
deriving DecidableEq, Repr

/-- The arguments object handed to `DAVISLoader.__init__` (only the fields
the embedded code reads). -/
structure LoaderArgs where
  year : String
  single_object : Bool
  length_clip : Nat
  gt_maxseqlen : Nat
  dataset : String
deriving DecidableEq, Repr

/-- `cfg.PATH.SEQUENCES` after `__init__` when `split == 'val'`
(`davis2017.py` line 67). -/
def valSeqDir : String :=
  "/vulcan/scratch/pengzhou/model/Deep-Video-Inpainting/results/vi_davis/val"

/-- `cfg.PATH.SEQUENCES` after `__init__` for every other split
(`davis2017.py` line 76). -/
def trainSeqDir : String :=
  "/vulcan/scratch/pengzhou/model/opn-demo/vi_davis/train"

/-- What `DAVISLoader.__init__` produces: the mutated global `cfg` and,
when no exception is raised, the constructed loader. -/
structure InitResult where
  cfg : Config
  loader : Except PyErr DAVISLoader

/-- The local `self._db_sequences` list of `DAVISLoader.__init__`: the four
`db_read_sequences(args.year, self._phase)` calls of the source receive the
same arguments over a fixed file system, so each returns (an iterator over)
this same list. -/
def loader_sel (args : LoaderArgs) (split : String) (cfg' : Config)
    (fs : FileSystem) : List DbSeq :=
  db_read_sequences_str fs.dbInfo fs.isdir cfg'.PATH.SEQUENCES
    (some (pyInt args.year)) (some split)

/-- `self.sequences` (`davis2017.py` line 146): one `Sequence` per selected
db sequence, listing the `*.png` frames of `cfg.PATH.SEQUENCES/name`. -/
def loader_seqs (args : LoaderArgs) (split : String) (cfg' : Config)
    (fs : FileSystem) : List Sequence :=
  (loader_sel args split cfg' fs).map
    (fun s => ({ name := s.name, files := fs.imgFiles s.name } : Sequence))

/-- `self.annotations` (`davis2017.py` lines 150-151): one `Annotation` per
selected db sequence, listing the mask files of that sequence. -/
def loader_annots (args : LoaderArgs) (split : String) (cfg' : Config)
    (fs : FileSystem) : List Annot :=
  (loader_sel args split cfg' fs).map
    (fun s => ({ name := s.name, files := fs.annFiles s.name } : Annot))

/-- The clips appended to `self.sequence_clips` for one sequence by the
`use_prev_mask == False` loop body (`davis2017.py` lines 161-174). -/
def seq_clip_of (L : Nat) (sq : Sequence) : Except PyErr (List SequenceClip_simple) :=
  Except.map (fun sts => sts.map (fun sf => SequenceClip_simple.mk sq sf))
    (clip_startsE sq.files L)

/-- The single clip appended to `self.sequence_clips` for one sequence by
the `use_prev_mask == True` branch (`davis2017.py` lines 178-186): its
starting frame is the first sorted mask file of
`cfg.PATH.ANNOTATIONS/s.name` (`IndexError` when none exists). -/
def prev_mask_clip_of (fs : FileSystem) (s : DbSeq) : Except PyErr SequenceClip_simple :=
  match fs.annFiles s.name with
  | [] => .error PyErr.indexError
  | a :: _ => .ok (SequenceClip_simple.mk
      ({ name := s.name, files := fs.imgFiles s.name } : Sequence) a)

/-- The clips appended to `self.annotation_clips` for one sequence
(`davis2017.py` lines 193-207). -/
def annot_clip_of (L : Nat) (an : Annot) : Except PyErr (List AnnotClip_simple) :=
  Except.map (fun sts => sts.map (fun sf => AnnotClip_simple.mk an sf))
    (clip_startsE an.files L)

/-- The loader-construction part of `DAVISLoader.__init__` (after the `cfg`
mutation), for `cfg'` the already-mutated configuration.  The last
`db_read_sequences` call is stored in `self._db_sequences` as a `filter`
iterator, of which `zip(self.annotations, self._db_sequences)` has consumed
`len(self.annotations)` elements. -/
def DAVISLoader_init_loader (args : LoaderArgs) (split : String)
    (use_prev_mask : Bool) (cfg' : Config) (fs : FileSystem) :
    Except PyErr DAVISLoader :=
  if !(args.year == "2017" || args.year == "2016") then .error .assertionError
  else if args.single_object && !(args.year == "2016") then .error .exception
  else
    match (if use_prev_mask = false then
        match forE (seq_clip_of args.length_clip) (loader_seqs args split cfg' fs) with
        | .error e => .error e
        | .ok cls => .ok cls.flatten
      else
        forE (prev_mask_clip_of fs) (loader_sel args split cfg' fs)) with
    | .error e => .error e
    | .ok seq_clips =>
      match forE (annot_clip_of args.length_clip) (loader_annots args split cfg' fs) with
      | .error e => .error e
      | .ok acls =>
        .ok {
          _year := args.year
          _phase := split
          _length_clip := args.length_clip
          use_prev_mask := use_prev_mask
          sequences := loader_seqs args split cfg' fs
          annotations := loader_annots args split cfg' fs
          sequence_clips := seq_clips
          annotation_clips := acls.flatten
          _keys := pyDict ((loader_seqs args split cfg' fs).map (fun sq => sq.name))
          _keys_clips := pyDict (seq_clips.map (fun c => c.seq.name ++ toString c.starting_frame))
          _db_sequences := { remaining :=
            (loader_sel args split cfg' fs).drop (loader_annots args split cfg' fs).length }
        }

/-- The global `cfg` after the overwrite at the top of
`DAVISLoader.__init__` (`davis2017.py` lines 66-82): `cfg.PATH.SEQUENCES`
is replaced according to the split and nothing else is touched. -/
def init_cfg (split : String) (cfg : Config) : Config :=
  { cfg with
    PATH := { cfg.PATH with
      SEQUENCES := if split == "val" then valSeqDir else trainSeqDir } }

/-- `DAVISLoader.__init__`: it first overwrites the global
`cfg.PATH.SEQUENCES` according to the split (`davis2017.py` lines 66-82) -
this mutation happens even when a later check raises - and then builds the
loader state. -/
def DAVISLoader_init (args : LoaderArgs) (split : String) (use_prev_mask : Bool)
    (cfg : Config) (fs : FileSystem) : InitResult :=
  { cfg := init_cfg split cfg
    loader := DAVISLoader_init_loader args split use_prev_mask (init_cfg split cfg) fs }

/-- The keys a Python caller can pass to `get_raw_sample` /
`get_raw_sample_clip`: a string, an int, or any other object. -/
inductive PyKey where
  | str (s : String)
  | int (n : Nat)
  | other
deriving DecidableEq, Repr

/-- The edict returned by `get_raw_sample` / `get_raw_sample_clip`. -/
structure RawSample (ι κ : Type) where
  images : ι
  annotations : κ
deriving DecidableEq, Repr

/-- `DAVISLoader.get_raw_sample` (`davis2017.py` lines 221-233).  On a key
that is neither `str` nor `int` the source executes `raise InputError()`,
and the name `InputError` is defined nowhere in the program, so the lookup
of that name itself raises `NameError`. -/
def DAVISLoader.get_raw_sample (l : DAVISLoader) (key : PyKey) :
    Except PyErr (RawSample Sequence Annot) :=
  match key with
  | .str k =>
    match pyDictGet l._keys k with
    | .error e => .error e
    | .ok sid =>
      match pyIndex l.sequences sid, pyIndex l.annotations sid with
      | .ok im, .ok an => .ok { images := im, annotations := an }
      | .error e, _ => .error e
      | _, .error e => .error e
  | .int sid =>
    match pyIndex l.sequences sid, pyIndex l.annotations sid with
    | .ok im, .ok an => .ok { images := im, annotations := an }
    | .error e, _ => .error e
    | _, .error e => .error e
  | .other => .error .nameError

/-- `DAVISLoader.get_raw_sample_clip` (`davis2017.py` lines 235-247); same
shape as `get_raw_sample` but over the clip lists and `self._keys_clips`. -/
def DAVISLoader.get_raw_sample_clip (l : DAVISLoader) (key : PyKey) :
    Except PyErr (RawSample SequenceClip_simple AnnotClip_simple) :=
  match key with
  | .str k =>
    match pyDictGet l._keys_clips k with
    | .error e => .error e
    | .ok sid =>
      match pyIndex l.sequence_clips sid, pyIndex l.annotation_clips sid with
      | .ok im, .ok an => .ok { images := im, annotations := an }
      | .error e, _ => .error e
      | _, .error e => .error e
  | .int sid =>
    match pyIndex l.sequence_clips sid, pyIndex l.annotation_clips sid with
    | .ok im, .ok an => .ok { images := im, annotations := an }
    | .error e, _ => .error e
    | _, .error e => .error e
  | .other => .error .nameError

/-- `DAVISLoader.sequence_id_to_name` (`davis2017.py` lines 257-259):
`self._db_sequences[sid].name`, a subscript of the stored `filter` object. -/
def DAVISLoader.sequence_id_to_name (l : DAVISLoader) (sid : Nat) :
    Except PyErr String :=
  match PyFilter.subscript l._db_sequences sid with
  | .error e => .error e
  | .ok s => .ok s.name

/-- `DAVISLoader.iternames` (`davis2017.py` lines 265-268): the generator
yields what remains in the `self._db_sequences` iterator. -/
def DAVISLoader.iternames (l : DAVISLoader) : List DbSeq :=
  l._db_sequences.remaining

/-- `DAVISLoader.get_raw_sample` with the loader state threaded explicitly:
every statement of the source body only reads `self` (dict lookups and list
subscripts), so the loader state out is the state in. -/
def DAVISLoader.get_raw_sample_st (l : DAVISLoader) (key : PyKey) :
    (Except PyErr (RawSample Sequence Annot)) × DAVISLoader :=
  (l.get_raw_sample key, l)

/-- `DAVISLoader.get_raw_sample_clip` with the loader state threaded
explicitly; the body only reads `self`. -/
def DAVISLoader.get_raw_sample_clip_st (l : DAVISLoader) (key : PyKey) :
    (Except PyErr (RawSample SequenceClip_simple AnnotClip_simple)) × DAVISLoader :=
  (l.get_raw_sample_clip key, l)

/-! ## train.py -/

/-- The `--gpus` argument: its argparse `type` lambda parses a
comma-separated list of ints, and the default is the int `-1`, so
`args.gpus == -1` holds exactly when the flag was not passed. -/
inductive GpuSpec where
  | default_
  | chosen (gs : List Int)
deriving DecidableEq, Repr

/-- `config['training_args']` of the YAML config file (only the key the
embedded code reads by name). -/
structure TrainingArgs where
  max_epochs : Nat
deriving DecidableEq, Repr

/-- The YAML config file contents read by `parse_args`. -/
structure YamlConfig where
  model_args : List (String × String)
  training_args : TrainingArgs
deriving DecidableEq, Repr

/-- The argparse namespace handed to `parse_args` (`train.py` `main`). -/
structure CliArgs where
  config : String
  prev_ckpt : Option String
  resume : Bool
  version : String
  log_dir : String
  fast_dev_run : Bool
  pre : String
  gpus : GpuSpec
  logger : Option String
  uid : Option String
deriving DecidableEq, Repr

/-- The namespace returned by `parse_args`: the CLI args extended with the
fields read from the YAML config. -/
structure ParsedArgs extends CliArgs where
  model_args : List (String × String)
  training_args : TrainingArgs
  max_epochs : Nat
deriving DecidableEq, Repr

/-- `parse_args` of `train.py` (lines 118-136).  `fsExists` is
`os.path.exists` and `readYaml` the YAML load of a config file.  The
log-dir branch (lines 123-125) only prints and calls `os.makedirs`, a file
system side effect with no influence on the returned value, and is not
modelled. -/
def parse_args (fsExists : String → Bool) (readYaml : String → YamlConfig)
    (a : CliArgs) : Except PyErr ParsedArgs :=
  if !(fsExists a.config) then .error .fileNotFoundError
  else if truthyStr a.prev_ckpt && !(fsExists (a.prev_ckpt.getD "")) then
    .error .fileNotFoundError
  else if a.resume && !(truthyStr a.prev_ckpt) then .error .valueError
  else
    let config := readYaml a.config
    .ok { toCliArgs := a
          model_args := config.model_args
          training_args := config.training_args
          max_epochs := config.training_args.max_epochs }

/-- The experiment loggers `prepare_logger` can build. -/
inductive LoggerKind where
  | tensorboard (save_dir : String) (version : String) (name : String) (log_graph : Bool)
  | wandb (project : String) (save_dir : String) (version : String) (name : String)
      (log_model : String)
deriving DecidableEq, Repr

/-- `prepare_logger` of `train.py` (lines 42-78).  `cwd` is `os.getcwd()`
and `gen_id` the id `wandb.util.generate_id()` would produce; the
`os.makedirs` call of the wandb branch is a file system side effect and is
not modelled. -/
def prepare_logger (cwd : String) (gen_id : String) (a : ParsedArgs) :
    Except PyErr (Option LoggerKind × Option String) :=
  if a.fast_dev_run then .ok (none, none)
  else
    let logger_method := match a.logger with
      | none => "tensorboard"
      | some m => m
    if logger_method == "tensorboard" then
      .ok (some (.tensorboard cwd ("version_" ++ a.version) a.log_dir true),
        some (a.log_dir ++ "/version_" ++ a.version))
    else if logger_method == "wandb" then
      let log_path := a.log_dir ++ "/version_" ++ a.version
      let run_uid := if truthyStr a.uid then a.uid.getD "" else gen_id
      .ok (some (.wandb "vidnet" log_path ("version_" ++ a.version ++ "_" ++ run_uid)
          ("vidnet_" ++ a.version ++ "_" ++ run_uid) "all"),
        some (log_path ++ "/wandb"))
    else .error .notImplementedError

/-- The callbacks handed to the `Trainer` by `train` (fields in source
order). -/
inductive Callback where
  | modelSummary (max_depth : Int)
  | tqdmProgressBar (refresh_rate : Nat)
  | modelCheckpoint (dirpath : String) (monitor : String) (filename : String)
      (verbose : Bool) (save_last : Bool) (save_top_k : Nat) (mode : String)
  | lrMonitor (logging_interval : String)
deriving DecidableEq, Repr

/-- The `devices` argument of the `Trainer`: the int `1`, the string
`"auto"`, or a list of GPU indices. -/
inductive Devices where
  | one
  | auto
  | gpuList (gs : List Int)
deriving DecidableEq, Repr

/-- The `Trainer(...)` construction arguments of `train` (lines 101-112). -/
structure TrainerCfg where
  accelerator : String
  devices : Devices
  max_epochs : Nat
  logger : Option LoggerKind
  profiler : Option String
  callbacks : List Callback
  fast_dev_run : Bool
  enable_checkpointing : Bool
  log_every_n_steps : Nat
deriving DecidableEq, Repr

/-- `train` of `train.py` (lines 81-115), up to the `Trainer` construction:
the model loading and `trainer.fit` call are external-library effects, so
the embedded function returns the `TrainerCfg` the `Trainer` is built
with.  When `prepare_logger` returned `log_path = None`, the f-string
`f"{log_path}/checkpoints"` renders the Python `None` as the string
"None". -/
def train (cwd : String) (gen_id : String) (a : ParsedArgs) :
    Except PyErr TrainerCfg :=
  match prepare_logger cwd gen_id a with
  | .error e => .error e
  | .ok (logger, log_path) =>
    let model_ckpt := Callback.modelCheckpoint
      ((match log_path with | none => "None" | some p => p) ++ "/checkpoints")
      "val_f1"
      ((if !(a.pre == "") then a.pre ++ "-" else "") ++
        "\x7bepoch:02d\x7d-\x7bval_f1:.4f\x7d-\x7bval_jaccard:.4f\x7d")
      true true 2 "max"
    let callbacks := if a.fast_dev_run then [] else
      [Callback.modelSummary (-1), Callback.tqdmProgressBar 1, model_ckpt,
        Callback.lrMonitor "step"]
    let num_gpus := if a.fast_dev_run then Devices.one else
      (match a.gpus with
        | .default_ => Devices.auto
        | .chosen gs => Devices.gpuList gs)
    .ok { accelerator := "auto"
          devices := num_gpus
          max_epochs := a.max_epochs
          logger := logger
          profiler := none
          callbacks := callbacks
          fast_dev_run := a.fast_dev_run
          enable_checkpointing := !a.fast_dev_run
          log_every_n_steps := 10 }

/-! ## Concrete instances used by counterexamples and witnesses -/

/-- A concrete configuration in the shape `misc/config.py` builds at module
load (`osp.abspath` results are modelled by the path strings themselves). -/
def cfg0 : Config :=
  { N_JOBS := 32
    RESOLUTION := "480p"
    YEAR := "2016"
    PHASE := Phase.VAL
    MULTIOBJECT := true
    PATH := { ROOT := "../../VIDNet/"
              DATA := "../databases/DAVIS2016/"
              ORIGINAL := "../databases/DAVIS2016//JPEGImages/480p"
              SEQUENCES2 := "/#FIXME/model/Deep-Video-Inpainting/results/vi_davis"
              SEQUENCES := "/#FIXME/model/opn-demo/vi_davis"
              FLOW := "../../flownet2-pytorch/result/inference/run.epoch-0-flow-field"
              ANNOTATIONS := "../databases/DAVIS2016//Annotations/480p"
              PALETTE := "../../VIDNet/src/dataloader/palette.txt" }
    DB_INFO := "../../VIDNet/src/dataloader/db_info.yaml"
    SEQUENCES := []
    EVAL_METRICS := ["J", "F"]
    EVAL_STATISTICS := ["mean", "recall", "decay"] }

/-- A file system with one db sequence "bear" of two frames whose image and
mask listings agree (used by witnesses). -/
def fsW : FileSystem :=
  { dbInfo := [⟨"bear", 2016, Phase.TRAIN⟩]
    isdir := fun _ => true
    imgFiles := fun _ => [0, 1]
    annFiles := fun _ => [0, 1] }

/-- Loader arguments with `length_clip = 1` (used by witnesses). -/
def argsW : LoaderArgs :=
  { year := "2016", single_object := false, length_clip := 1,
    gt_maxseqlen := 5, dataset := "davis2017" }

/-- The loader `DAVISLoader.__init__` builds on `argsW` / `fsW` (the
construction succeeds, so the fallback branch is dead). -/
def loaderW : DAVISLoader :=
  match (DAVISLoader_init argsW "train" false cfg0 fsW).loader with
  | .ok l => l
  | .error _ =>
    { _year := "", _phase := "", _length_clip := 0, use_prev_mask := false,
      sequences := [], annotations := [], sequence_clips := [],
      annotation_clips := [], _keys := [], _keys_clips := [],
      _db_sequences := { remaining := [] } }

/-- Loader arguments with `length_clip = 2` (C1 counterexample). -/
def argsC1 : LoaderArgs :=
  { year := "2016", single_object := false, length_clip := 2,
    gt_maxseqlen := 5, dataset := "davis2017" }

/-- A file system whose single sequence "bear" has one frame, fewer than
`length_clip = 2` (C1 counterexample). -/
def fsC1 : FileSystem :=
  { dbInfo := [⟨"bear", 2016, Phase.TRAIN⟩]
    isdir := fun _ => true
    imgFiles := fun _ => [0]
    annFiles := fun _ => [0] }

/-- Loader arguments with `length_clip = 1` (C2 counterexample). -/
def argsC2 : LoaderArgs :=
  { year := "2016", single_object := false, length_clip := 1,
    gt_maxseqlen := 5, dataset := "davis2017" }

/-- A file system with two sequences where sequence "a" has two image
frames but only one mask frame, so the clip lists fall out of step
(C2 counterexample). -/
def fsC2 : FileSystem :=
  { dbInfo := [⟨"a", 2016, Phase.TRAIN⟩, ⟨"b", 2016, Phase.TRAIN⟩]
    isdir := fun _ => true
    imgFiles := fun n => if n == "a" then [0, 1] else [5]
    annFiles := fun n => if n == "a" then [0] else [5] }

/-- A concrete YAML config contents (C4). -/
def yamlC4 : YamlConfig :=
  { model_args := [("encoder", "vgg")], training_args := { max_epochs := 10 } }

/-- CLI args with `--resume` set but no `--prev-ckpt` (C4 counterexample,
together with a missing config file). -/
def argsC4 : CliArgs :=
  { config := "cfg.yaml", prev_ckpt := none, resume := true, version := "0",
    log_dir := "lightning_logs/vidnet", fast_dev_run := false, pre := "",
    gpus := .default_, logger := none, uid := none }

/-- CLI args for which `parse_args` succeeds (C4 witness). -/
def argsC4ok : CliArgs :=
  { config := "cfg.yaml", prev_ckpt := none, resume := false, version := "0",
    log_dir := "lightning_logs/vidnet", fast_dev_run := false, pre := "",
    gpus := .default_, logger := none, uid := none }

/-- CLI args with `fast_dev_run` set (C6 witness). -/
def argsFDR : CliArgs :=
  { config := "cfg.yaml", prev_ckpt := none, resume := false, version := "0",
    log_dir := "lightning_logs/vidnet", fast_dev_run := true, pre := "",
    gpus := .default_, logger := none, uid := none }

/-- Parsed args with `fast_dev_run` set (C6 witness). -/
def pArgsFDR : ParsedArgs :=
  { toCliArgs := argsFDR, model_args := [],
    training_args := { max_epochs := 10 }, max_epochs := 10 }

/-! ## Claim C3 -/

/-- C3: for a given year `y` and phase `p ≠ TRAINVAL`, `db_read_sequences`
yields exactly the db-info sequences with `int(s.year) <= int(y)`,
`s.set == p` and an existing directory `cfg.PATH.SEQUENCES/s.name`; for
`p = TRAINVAL` it yields exactly those with `int(s.year) <= int(y)` whose
set is `VAL` or `TRAIN`, with no directory-existence check. -/
theorem db_read_sequences_spec (dbInfo : List DbSeq) (isdir : String → Bool)
    (seqPath : String) (y : Nat) (p : Phase) :
    (p ≠ Phase.TRAINVAL →
      ∀ s : DbSeq, s ∈ db_read_sequences dbInfo isdir seqPath (some y) (some p) ↔
        (s ∈ dbInfo ∧ s.year ≤ y ∧ s.set = p ∧ isdir (ospJoin seqPath s.name) = true)) ∧
    (∀ s : DbSeq, s ∈ db_read_sequences dbInfo isdir seqPath (some y) (some Phase.TRAINVAL) ↔
        (s ∈ dbInfo ∧ s.year ≤ y ∧ (s.set = Phase.VAL ∨ s.set = Phase.TRAIN))) := by
  constructor
  · intro hp s
    have hpb : (p == Phase.TRAINVAL) = false := by
      cases p <;> simp_all
    simp [db_read_sequences, hpb, List.mem_filter, and_assoc]
    tauto
  · intro s
    simp [db_read_sequences, List.mem_filter, and_assoc]
    tauto

/-- Witness for C3 at a concrete db-info list, year and phase. -/
theorem db_read_sequences_spec_witness :
    ((Phase.TRAIN ≠ Phase.TRAINVAL) ∧
      (⟨"bear", 2016, Phase.TRAIN⟩ ∈
        db_read_sequences [⟨"bear", 2016, Phase.TRAIN⟩] (fun _ => true) "/seq"
          (some 2017) (some Phase.TRAIN) ↔
       (⟨"bear", 2016, Phase.TRAIN⟩ ∈ ([⟨"bear", 2016, Phase.TRAIN⟩] : List DbSeq) ∧
        (2016 : Nat) ≤ 2017 ∧ Phase.TRAIN = Phase.TRAIN ∧
        (fun (_ : String) => true) (ospJoin "/seq" "bear") = true)) ) :=
  ⟨by decide,
    (db_read_sequences_spec [⟨"bear", 2016, Phase.TRAIN⟩] (fun _ => true) "/seq"
      2017 Phase.TRAIN).1 (by decide) ⟨"bear", 2016, Phase.TRAIN⟩⟩

/-! ## Helper lemmas on the loader construction -/

theorem forE_ok_map {α β : Type} {f : α → Except PyErr β} {g : α → β}
    (hf : ∀ x y, f x = .ok y → y = g x) :
    ∀ {xs : List α} {ys : List β}, forE f xs = .ok ys →
      ys = xs.map g ∧ ∀ x ∈ xs, f x = .ok (g x) := by
  intro xs
  induction xs with
  | nil =>
    intro ys h
    simp only [forE] at h
    cases h
    simp
  | cons x xs ih =>
    intro ys h
    unfold forE at h
    cases hx : f x with
    | error e => rw [hx] at h; cases h
    | ok y =>
      rw [hx] at h
      cases hxs : forE f xs with
      | error e => rw [hxs] at h; cases h
      | ok ys' =>
        rw [hxs] at h
        cases h
        obtain ⟨h1, h2⟩ := ih hxs
        have hy := hf x y hx
        subst hy h1
        refine ⟨rfl, ?_⟩
        intro z hz
        rcases List.mem_cons.mp hz with hz | hz
        · subst hz; exact hx
        · exact h2 z hz

theorem clip_startsE_ok_inv {files : List Nat} {L : Nat} {sts : List Nat}
    (h : clip_startsE files L = .ok sts) :
    files ≠ [] ∧ L ≠ 0 ∧ sts = clip_starts files L := by
  unfold clip_startsE at h
  split at h
  · cases h
  · split at h
    · cases h
    · cases h
      refine ⟨?_, ?_, rfl⟩
      · simp_all [List.isEmpty_iff]
      · simp_all

theorem clip_starts_length (files : List Nat) (L : Nat) :
    (clip_starts files L).length = max 1 (files.length / L) := by
  simp [clip_starts]
  omega

theorem clip_starts_eq (files : List Nat) (L : Nat) :
    clip_starts files L =
      (List.range (max 1 (files.length / L))).map (fun k => files.getD (k * L) 0) := by
  unfold clip_starts
  cases hm : files.length / L with
  | zero =>
    rw [show (1 : Nat) ⊔ 0 = 1 by omega, show List.range 1 = [0] from rfl]
    simp
  | succ m =>
    rw [show max 1 (m + 1) = m + 1 by omega, List.range_succ_eq_map]
    simp [List.map_map, Function.comp_def, Nat.succ_eq_add_one]

theorem seq_clip_of_ok_inv {L : Nat} {sq : Sequence} {y : List SequenceClip_simple}
    (h : seq_clip_of L sq = .ok y) :
    sq.files ≠ [] ∧ L ≠ 0 ∧
      y = (clip_starts sq.files L).map (fun sf => SequenceClip_simple.mk sq sf) := by
  unfold seq_clip_of at h
  cases hc : clip_startsE sq.files L with
  | error e => rw [hc] at h; cases h
  | ok sts =>
    rw [hc] at h
    cases h
    obtain ⟨h1, h2, h3⟩ := clip_startsE_ok_inv hc
    exact ⟨h1, h2, by rw [h3]⟩

theorem annot_clip_of_ok_inv {L : Nat} {an : Annot} {y : List AnnotClip_simple}
    (h : annot_clip_of L an = .ok y) :
    an.files ≠ [] ∧ L ≠ 0 ∧
      y = (clip_starts an.files L).map (fun sf => AnnotClip_simple.mk an sf) := by
  unfold annot_clip_of at h
  cases hc : clip_startsE an.files L with
  | error e => rw [hc] at h; cases h
  | ok sts =>
    rw [hc] at h
    cases h
    obtain ⟨h1, h2, h3⟩ := clip_startsE_ok_inv hc
    exact ⟨h1, h2, by rw [h3]⟩

/-- Inversion of a successful `DAVISLoader.__init__`: every field of the
resulting loader in terms of the selected db sequences, and the
nonemptiness facts that success of the clip loops implies. -/
theorem init_loader_ok_inv {args : LoaderArgs} {split : String} {upm : Bool}
    {cfg' : Config} {fs : FileSystem} {l : DAVISLoader}
    (h : DAVISLoader_init_loader args split upm cfg' fs = .ok l) :
    l._year = args.year ∧ l._phase = split ∧ l._length_clip = args.length_clip ∧
    l.use_prev_mask = upm ∧
    l.sequences = loader_seqs args split cfg' fs ∧
    l.annotations = loader_annots args split cfg' fs ∧
    (∀ an ∈ loader_annots args split cfg' fs, an.files ≠ [] ∧ args.length_clip ≠ 0) ∧
    l.annotation_clips = ((loader_annots args split cfg' fs).map
      (fun an => (clip_starts an.files args.length_clip).map
        (fun sf => AnnotClip_simple.mk an sf))).flatten ∧
    (upm = false →
      (∀ sq ∈ loader_seqs args split cfg' fs, sq.files ≠ [] ∧ args.length_clip ≠ 0) ∧
      l.sequence_clips = ((loader_seqs args split cfg' fs).map
        (fun sq => (clip_starts sq.files args.length_clip).map
          (fun sf => SequenceClip_simple.mk sq sf))).flatten) ∧
    l._keys = pyDict ((loader_seqs args split cfg' fs).map (fun sq => sq.name)) ∧
    l._db_sequences = { remaining := [] } := by
  unfold DAVISLoader_init_loader at h
  split at h
  · cases h
  · split at h
    · cases h
    · cases hsc : (if upm = false then
          match forE (seq_clip_of args.length_clip) (loader_seqs args split cfg' fs) with
          | .error e => .error e
          | .ok cls => .ok cls.flatten
        else forE (prev_mask_clip_of fs) (loader_sel args split cfg' fs)) with
      | error e => rw [hsc] at h; cases h
      | ok seq_clips =>
        rw [hsc] at h
        cases hac : forE (annot_clip_of args.length_clip) (loader_annots args split cfg' fs) with
        | error e => rw [hac] at h; cases h
        | ok acls =>
          rw [hac] at h
          cases h
          obtain ⟨hac1, hac2⟩ := forE_ok_map
            (fun an y hy => (annot_clip_of_ok_inv hy).2.2) hac
          refine ⟨rfl, rfl, rfl, rfl, rfl, rfl, ?_, ?_, ?_, rfl, ?_⟩
          · intro an han
            have := annot_clip_of_ok_inv (hac2 an han)
            exact ⟨this.1, this.2.1⟩
          · simp only [hac1]
          · intro hupm
            subst hupm
            simp only [if_pos rfl] at hsc
            cases hfe : forE (seq_clip_of args.length_clip) (loader_seqs args split cfg' fs) with
            | error e => rw [hfe] at hsc; cases hsc
            | ok cls =>
              rw [hfe] at hsc
              cases hsc
              obtain ⟨hc1, hc2⟩ := forE_ok_map
                (fun sq y hy => (seq_clip_of_ok_inv hy).2.2) hfe
              refine ⟨?_, ?_⟩
              · intro sq hsq
                have := seq_clip_of_ok_inv (hc2 sq hsq)
                exact ⟨this.1, this.2.1⟩
              · simp only [hc1]
          · simp only [loader_annots, List.length_map]
            congr 1
            exact List.drop_length _

/-! ## Claim C7 -/

/-- C7: after a successful `__init__`, `self._db_sequences` is the last
`filter` iterator created, already fully consumed by the `zip` that built
`annotation_clips`; hence `iternames()` yields no elements and
`sequence_id_to_name(sid)` raises a `TypeError` for every index `sid`,
because a `filter` object is not subscriptable. -/
theorem iternames_empty_and_id_to_name_raises (args : LoaderArgs) (split : String)
    (upm : Bool) (cfg : Config) (fs : FileSystem) (l : DAVISLoader)
    (h : (DAVISLoader_init args split upm cfg fs).loader = .ok l) :
    l.iternames = [] ∧
      ∀ sid : Nat, l.sequence_id_to_name sid = .error .typeError := by
  obtain ⟨-, -, -, -, -, -, -, -, -, -, hdb⟩ := init_loader_ok_inv h
  refine ⟨?_, fun sid => rfl⟩
  unfold DAVISLoader.iternames
  rw [hdb]

/-- Witness for C7 on a concrete successful `__init__`. -/
theorem iternames_empty_and_id_to_name_raises_witness :
    ((DAVISLoader_init argsW "train" false cfg0 fsW).loader = .ok loaderW) ∧
    loaderW.iternames = [] ∧
    loaderW.sequence_id_to_name 0 = .error .typeError := by
  have h : (DAVISLoader_init argsW "train" false cfg0 fsW).loader = .ok loaderW := by
    decide
  have h2 := iternames_empty_and_id_to_name_raises argsW "train" false cfg0 fsW loaderW h
  exact ⟨h, h2.1, h2.2 0⟩

/-! ## Claim C8 -/

/-- C8: on a key that is neither a `str` nor an `int`, both `get_raw_sample`
and `get_raw_sample_clip` raise instead of returning, and the exception is
a `NameError`: the `raise InputError()` statement refers to a name that is
defined nowhere in the program. -/
theorem get_raw_sample_other_key_raises (l : DAVISLoader) :
    l.get_raw_sample PyKey.other = .error .nameError ∧
    l.get_raw_sample_clip PyKey.other = .error .nameError :=
  ⟨rfl, rfl⟩

/-! ## Claim C9 -/

/-- C9: `__init__` overwrites the shared global `cfg.PATH.SEQUENCES` (to the
`.../vi_davis/val` path when `split == 'val'`, and to the
`.../vi_davis/train` path for every other split) and leaves every other
field of `cfg` - including `cfg.PATH.ANNOTATIONS`, `cfg.PATH.DATA` and
`cfg.SEQUENCES` - unchanged. -/
theorem init_mutates_only_sequences_path (args : LoaderArgs) (split : String)
    (upm : Bool) (cfg : Config) (fs : FileSystem) :
    ((DAVISLoader_init args split upm cfg fs).cfg.PATH.SEQUENCES =
      if split == "val" then valSeqDir else trainSeqDir) ∧
    (DAVISLoader_init args split upm cfg fs).cfg.PATH.ANNOTATIONS = cfg.PATH.ANNOTATIONS ∧
    (DAVISLoader_init args split upm cfg fs).cfg.PATH.DATA = cfg.PATH.DATA ∧
    (DAVISLoader_init args split upm cfg fs).cfg.PATH.ROOT = cfg.PATH.ROOT ∧
    (DAVISLoader_init args split upm cfg fs).cfg.PATH.ORIGINAL = cfg.PATH.ORIGINAL ∧
    (DAVISLoader_init args split upm cfg fs).cfg.PATH.SEQUENCES2 = cfg.PATH.SEQUENCES2 ∧
    (DAVISLoader_init args split upm cfg fs).cfg.PATH.FLOW = cfg.PATH.FLOW ∧
    (DAVISLoader_init args split upm cfg fs).cfg.PATH.PALETTE = cfg.PATH.PALETTE ∧
    (DAVISLoader_init args split upm cfg fs).cfg.N_JOBS = cfg.N_JOBS ∧
    (DAVISLoader_init args split upm cfg fs).cfg.RESOLUTION = cfg.RESOLUTION ∧
    (DAVISLoader_init args split upm cfg fs).cfg.YEAR = cfg.YEAR ∧
    (DAVISLoader_init args split upm cfg fs).cfg.PHASE = cfg.PHASE ∧
    (DAVISLoader_init args split upm cfg fs).cfg.MULTIOBJECT = cfg.MULTIOBJECT ∧
    (DAVISLoader_init args split upm cfg fs).cfg.DB_INFO = cfg.DB_INFO ∧
    (DAVISLoader_init args split upm cfg fs).cfg.SEQUENCES = cfg.SEQUENCES ∧
    (DAVISLoader_init args split upm cfg fs).cfg.EVAL_METRICS = cfg.EVAL_METRICS ∧
    (DAVISLoader_init args split upm cfg fs).cfg.EVAL_STATISTICS = cfg.EVAL_STATISTICS :=
  ⟨rfl, rfl, rfl, rfl, rfl, rfl, rfl, rfl, rfl, rfl, rfl, rfl, rfl, rfl, rfl, rfl, rfl⟩

/-! ## Claim C10 -/

/-- C10: data loading is deterministic and mutation-free: calling
`get_raw_sample` (or `get_raw_sample_clip`) twice with the same key returns
equal results in both runs and leaves the loader state unchanged. -/
theorem get_raw_sample_deterministic (l : DAVISLoader) (key : PyKey) :
    (l.get_raw_sample_st key).1 = ((l.get_raw_sample_st key).2.get_raw_sample_st key).1 ∧
    (l.get_raw_sample_st key).2 = l ∧
    ((l.get_raw_sample_st key).2.get_raw_sample_st key).2 = l ∧
    (l.get_raw_sample_clip_st key).1 =
      ((l.get_raw_sample_clip_st key).2.get_raw_sample_clip_st key).1 ∧
    (l.get_raw_sample_clip_st key).2 = l ∧
    ((l.get_raw_sample_clip_st key).2.get_raw_sample_clip_st key).2 = l :=
  ⟨rfl, rfl, rfl, rfl, rfl, rfl⟩

/-! ## Claim C5 -/

theorem pyIndex_ok_iff {α : Type} {xs : List α} {i : Nat} {x : α} :
    pyIndex xs i = .ok x ↔ xs[i]? = some x := by
  unfold pyIndex
  cases h : xs[i]? <;> simp

/-- C5: `get_raw_sample` pairs frames with masks of the same index: for an
int key `sid` it returns `self.sequences[sid]` and `self.annotations[sid]`,
which carry the same sequence name; and for a string key it behaves like the
int key `self._keys[key]`. -/
theorem get_raw_sample_pairs_aligned (args : LoaderArgs) (split : String)
    (upm : Bool) (cfg : Config) (fs : FileSystem) (l : DAVISLoader)
    (h : (DAVISLoader_init args split upm cfg fs).loader = .ok l) :
    (∀ (sid : Nat) (im : Sequence) (an : Annot),
        l.get_raw_sample (PyKey.int sid) = .ok { images := im, annotations := an } →
        l.sequences[sid]? = some im ∧ l.annotations[sid]? = some an ∧
          im.name = an.name) ∧
    (∀ (k : String) (sid : Nat), pyDictGet l._keys k = .ok sid →
        l.get_raw_sample (PyKey.str k) = l.get_raw_sample (PyKey.int sid)) := by
  obtain ⟨-, -, -, -, hseqs, hanns, -, -, -, -, -⟩ := init_loader_ok_inv h
  constructor
  · intro sid im an hs
    simp only [DAVISLoader.get_raw_sample] at hs
    cases him : pyIndex l.sequences sid with
    | error e =>
      rw [him] at hs
      cases han : pyIndex l.annotations sid <;> rw [han] at hs <;> simp at hs
    | ok im0 =>
      cases han : pyIndex l.annotations sid with
      | error e => rw [him, han] at hs; simp at hs
      | ok an0 =>
        rw [him, han] at hs
        simp only [Except.ok.injEq, RawSample.mk.injEq] at hs
        obtain ⟨h1, h2⟩ := hs
        subst h1
        subst h2
        have him2 := pyIndex_ok_iff.mp him
        have han2 := pyIndex_ok_iff.mp han
        refine ⟨him2, han2, ?_⟩
        rw [hseqs] at him2
        rw [hanns] at han2
        unfold loader_seqs at him2
        unfold loader_annots at han2
        rw [List.getElem?_map] at him2 han2
        cases hsel : (loader_sel args split (init_cfg split cfg) fs)[sid]? with
        | none => rw [hsel] at him2; cases him2
        | some s =>
          rw [hsel] at him2 han2
          simp only [Option.map_some', Option.some.injEq] at him2 han2
          rw [← him2, ← han2]
  · intro k sid hk
    simp only [DAVISLoader.get_raw_sample]
    rw [hk]

/-- Witness for C5 on a concrete successful `__init__`. -/
theorem get_raw_sample_pairs_aligned_witness :
    ((DAVISLoader_init argsW "train" false cfg0 fsW).loader = .ok loaderW) ∧
    (loaderW.get_raw_sample (PyKey.int 0) =
      .ok { images := ⟨"bear", [0, 1]⟩, annotations := ⟨"bear", [0, 1]⟩ }) ∧
    (loaderW.sequences[0]? = some ⟨"bear", [0, 1]⟩ ∧
      loaderW.annotations[0]? = some ⟨"bear", [0, 1]⟩ ∧
      ("bear" : String) = "bear") :=
  ⟨by decide, by decide,
    (get_raw_sample_pairs_aligned argsW "train" false cfg0 fsW loaderW
      (by decide)).1 0 ⟨"bear", [0, 1]⟩ ⟨"bear", [0, 1]⟩ (by decide)⟩

/-! ## Claim C1 -/

/-- C1 counterexample: on a sequence of 1 frame with `length_clip = 2`
(`use_prev_mask = False`), `__init__` appends 1 sequence clip and 1
annotation clip, not `floor(num_frames / L) = floor(1 / 2) = 0` of each as
the claim states. -/
theorem init_clip_count_counterexample :
    ((DAVISLoader_init argsC1 "train" false cfg0 fsC1).loader.map
      (fun l => l.sequence_clips.length) = .ok 1) ∧
    ((fsC1.imgFiles "bear").length / argsC1.length_clip = 0) ∧
    ((DAVISLoader_init argsC1 "train" false cfg0 fsC1).loader.map
      (fun l => l.annotation_clips.length) = .ok 1) ∧
    ((fsC1.annFiles "bear").length / argsC1.length_clip = 0) := by
  decide

/-- C1 (amended): for every sequence loaded with `use_prev_mask = False`,
`__init__` appends exactly `max 1 (floor(num_frames / L))` clips for that
sequence (which is `floor(num_frames / L)` whenever `num_frames >= L`),
whose starting frames are the integers parsed from the file basenames at
indices `0, L, 2L, ...` of that sequence's sorted file list; likewise for
the annotation clips over the annotation file counts. -/
theorem init_clip_lists (args : LoaderArgs) (split : String) (cfg : Config)
    (fs : FileSystem) (l : DAVISLoader)
    (h : (DAVISLoader_init args split false cfg fs).loader = .ok l) :
    l.sequence_clips =
      ((loader_seqs args split (init_cfg split cfg) fs).map
        (fun sq => (List.range (max 1 (sq.files.length / args.length_clip))).map
          (fun k => SequenceClip_simple.mk sq (sq.files.getD (k * args.length_clip) 0)))).flatten ∧
    l.annotation_clips =
      ((loader_annots args split (init_cfg split cfg) fs).map
        (fun an => (List.range (max 1 (an.files.length / args.length_clip))).map
          (fun k => AnnotClip_simple.mk an (an.files.getD (k * args.length_clip) 0)))).flatten := by
  obtain ⟨-, -, -, -, -, -, -, hac, hsc, -, -⟩ := init_loader_ok_inv h
  obtain ⟨-, hscl⟩ := hsc rfl
  constructor
  · rw [hscl]
    simp only [clip_starts_eq, List.map_map, Function.comp_def]
  · rw [hac]
    simp only [clip_starts_eq, List.map_map, Function.comp_def]

/-- Witness for C1 on a concrete successful `__init__`. -/
theorem init_clip_lists_witness :
    ((DAVISLoader_init argsW "train" false cfg0 fsW).loader = .ok loaderW) ∧
    (loaderW.sequence_clips =
      ((loader_seqs argsW "train" (init_cfg "train" cfg0) fsW).map
        (fun sq => (List.range (max 1 (sq.files.length / argsW.length_clip))).map
          (fun k => SequenceClip_simple.mk sq (sq.files.getD (k * argsW.length_clip) 0)))).flatten ∧
     loaderW.annotation_clips =
      ((loader_annots argsW "train" (init_cfg "train" cfg0) fsW).map
        (fun an => (List.range (max 1 (an.files.length / argsW.length_clip))).map
          (fun k => AnnotClip_simple.mk an (an.files.getD (k * argsW.length_clip) 0)))).flatten) :=
  ⟨by decide, init_clip_lists argsW "train" cfg0 fsW loaderW (by decide)⟩

/-! ## Claim C2 -/

/-- C2 counterexample: with sequence "a" having two image frames but one
mask frame (`length_clip = 1`), the clip lists fall out of step: at index 1
`get_raw_sample_clip` pairs the second clip of sequence "a" with the clip
of sequence "b", so the two clips are from different sequences with
different starting frames. -/
theorem get_raw_sample_clip_mismatch_counterexample :
    ((DAVISLoader_init argsC2 "train" false cfg0 fsC2).loader.map (fun l =>
      (l.get_raw_sample_clip (PyKey.int 1)).map (fun r =>
        (r.images.seq.name, r.images.starting_frame,
          r.annotations.annot.name, r.annotations.starting_frame)))
      = .ok (.ok ("a", 1, "b", 5))) ∧
    ("a" ≠ "b") ∧ ((1 : Nat) ≠ 5) := by
  decide

/-- C2 (amended): for every loader and every valid int key `k`,
`get_raw_sample_clip(k)` returns the record with
`images = self.sequence_clips[k]` and
`annotations = self.annotation_clips[k]`; and when the loader was built
with `use_prev_mask = False` and every selected sequence's sorted
image-file basenames equal its sorted mask-file basenames, the two clips
belong to the same sequence and have the same starting frame.  (The
`use_prev_mask = True` branch builds one clip per sequence against
`max 1 (n / L)` annotation clips per sequence, so the pairing part does
not extend to it.) -/
theorem get_raw_sample_clip_pairs (args : LoaderArgs) (split : String)
    (upm : Bool) (cfg : Config) (fs : FileSystem) (l : DAVISLoader)
    (h : (DAVISLoader_init args split upm cfg fs).loader = .ok l) :
    (∀ (k : Nat) (im : SequenceClip_simple) (an : AnnotClip_simple),
        l.get_raw_sample_clip (PyKey.int k) = .ok { images := im, annotations := an } →
        l.sequence_clips[k]? = some im ∧ l.annotation_clips[k]? = some an) ∧
    (upm = false →
      (∀ s ∈ loader_sel args split (init_cfg split cfg) fs,
        fs.imgFiles s.name = fs.annFiles s.name) →
      ∀ (k : Nat) (im : SequenceClip_simple) (an : AnnotClip_simple),
        l.get_raw_sample_clip (PyKey.int k) = .ok { images := im, annotations := an } →
        im.seq.name = an.annot.name ∧ im.starting_frame = an.starting_frame) := by
  have hA : ∀ (k : Nat) (im : SequenceClip_simple) (an : AnnotClip_simple),
      l.get_raw_sample_clip (PyKey.int k) = .ok { images := im, annotations := an } →
      l.sequence_clips[k]? = some im ∧ l.annotation_clips[k]? = some an := by
    intro k im an hk
    simp only [DAVISLoader.get_raw_sample_clip] at hk
    cases him : pyIndex l.sequence_clips k with
    | error e =>
      rw [him] at hk
      cases han : pyIndex l.annotation_clips k <;> rw [han] at hk <;> simp at hk
    | ok im0 =>
      cases han : pyIndex l.annotation_clips k with
      | error e => rw [him, han] at hk; simp at hk
      | ok an0 =>
        rw [him, han] at hk
        simp only [Except.ok.injEq, RawSample.mk.injEq] at hk
        obtain ⟨h1, h2⟩ := hk
        subst h1
        subst h2
        exact ⟨pyIndex_ok_iff.mp him, pyIndex_ok_iff.mp han⟩
  refine ⟨hA, ?_⟩
  intro hupm hfs k im an hk
  subst hupm
  obtain ⟨him, han⟩ := hA k im an hk
  obtain ⟨-, -, -, -, -, -, -, hac, hsc, -, -⟩ := init_loader_ok_inv h
  obtain ⟨-, hscl⟩ := hsc rfl
  have hproj : l.sequence_clips.map (fun c => (c.seq.name, c.starting_frame)) =
      l.annotation_clips.map (fun c => (c.annot.name, c.starting_frame)) := by
    rw [hscl, hac]
    rw [List.map_flatten, List.map_flatten]
    unfold loader_seqs loader_annots
    simp only [List.map_map, Function.comp_def]
    congr 1
    apply List.map_congr_left
    intro s hs
    rw [hfs s hs]
  have hk2 := congrArg (fun t => t[k]?) hproj
  simp only [List.getElem?_map] at hk2
  rw [him, han] at hk2
  simp only [Option.map_some', Option.some.injEq, Prod.mk.injEq] at hk2
  exact hk2

/-- Witness for C2 on a concrete successful `__init__` with matching image
and mask listings. -/
theorem get_raw_sample_clip_pairs_witness :
    ((DAVISLoader_init argsW "train" false cfg0 fsW).loader = .ok loaderW) ∧
    (loaderW.get_raw_sample_clip (PyKey.int 1) = .ok
      { images := ⟨⟨"bear", [0, 1]⟩, 1⟩, annotations := ⟨⟨"bear", [0, 1]⟩, 1⟩ }) ∧
    (("bear" : String) = "bear" ∧ (1 : Nat) = 1) :=
  ⟨by decide, by decide,
    (get_raw_sample_clip_pairs argsW "train" false cfg0 fsW loaderW (by decide)).2
      rfl (by decide) 1 ⟨⟨"bear", [0, 1]⟩, 1⟩ ⟨⟨"bear", [0, 1]⟩, 1⟩ (by decide)⟩

/-! ## Claim C4 -/

/-- C4 counterexample: with a missing config file, `--resume` set and no
`--prev-ckpt`, `parse_args` raises `FileNotFoundError` (the config check
comes first), not `ValueError`, so "raises ValueError if and only if resume
is set and no prev_ckpt is given" fails in the only-if direction of its
right-to-left reading. -/
theorem parse_args_counterexample :
    (argsC4.resume = true ∧ truthyStr argsC4.prev_ckpt = false) ∧
    parse_args (fun _ => false) (fun _ => yamlC4) argsC4 = .error .fileNotFoundError ∧
    parse_args (fun _ => false) (fun _ => yamlC4) argsC4 ≠ .error .valueError := by
  decide

/-- C4 (amended): `parse_args` raises `FileNotFoundError` iff the config
path does not exist or a prev_ckpt is given whose path does not exist; it
raises `ValueError` iff the config path exists, resume is set and no
prev_ckpt is given; otherwise it returns the args extended with the
`model_args` and `training_args` read from the YAML config, with
`max_epochs = config['training_args']['max_epochs']`. -/
theorem parse_args_spec (fsExists : String → Bool) (readYaml : String → YamlConfig)
    (a : CliArgs) :
    (parse_args fsExists readYaml a = .error .fileNotFoundError ↔
      (fsExists a.config = false ∨
        (truthyStr a.prev_ckpt = true ∧ fsExists (a.prev_ckpt.getD "") = false))) ∧
    (parse_args fsExists readYaml a = .error .valueError ↔
      (fsExists a.config = true ∧ a.resume = true ∧ truthyStr a.prev_ckpt = false)) ∧
    ((fsExists a.config = true ∧
        (truthyStr a.prev_ckpt = true → fsExists (a.prev_ckpt.getD "") = true) ∧
        (a.resume = true → truthyStr a.prev_ckpt = true)) →
      parse_args fsExists readYaml a =
        .ok { toCliArgs := a
              model_args := (readYaml a.config).model_args
              training_args := (readYaml a.config).training_args
              max_epochs := (readYaml a.config).training_args.max_epochs }) := by
  unfold parse_args
  by_cases h1 : fsExists a.config = true <;>
    by_cases h2 : truthyStr a.prev_ckpt = true <;>
    by_cases h3 : fsExists (a.prev_ckpt.getD "") = true <;>
    by_cases h4 : a.resume = true <;>
    simp [h1, h2, h3, h4]

/-- Witness for C4 at a concrete existing config file and well-formed args. -/
theorem parse_args_spec_witness :
    ((fun (_ : String) => true) argsC4ok.config = true ∧
      (truthyStr argsC4ok.prev_ckpt = true →
        (fun (_ : String) => true) (argsC4ok.prev_ckpt.getD "") = true) ∧
      (argsC4ok.resume = true → truthyStr argsC4ok.prev_ckpt = true)) ∧
    parse_args (fun _ => true) (fun _ => yamlC4) argsC4ok =
      .ok { toCliArgs := argsC4ok
            model_args := yamlC4.model_args
            training_args := yamlC4.training_args
            max_epochs := yamlC4.training_args.max_epochs } :=
  ⟨by decide,
    (parse_args_spec (fun _ => true) (fun _ => yamlC4) argsC4ok).2.2 (by decide)⟩

/-! ## Claim C6 -/

/-- C6: when `fast_dev_run` is false, `train` builds the `Trainer` with
checkpointing enabled and with a `ModelCheckpoint` callback monitoring
"val_f1" in mode "max", keeping the top 2 checkpoints and saving the last
one; when `fast_dev_run` is true, the callback list is empty,
`enable_checkpointing` is false, and `prepare_logger` returns
`(None, None)`. -/
theorem train_trainer_spec (cwd gen_id : String) (a : ParsedArgs) :
    (a.fast_dev_run = false →
      ∀ t : TrainerCfg, train cwd gen_id a = .ok t →
        t.enable_checkpointing = true ∧
        ∃ dp fn : String,
          Callback.modelCheckpoint dp "val_f1" fn true true 2 "max" ∈ t.callbacks) ∧
    (a.fast_dev_run = true →
      prepare_logger cwd gen_id a = .ok (none, none) ∧
      ∃ t : TrainerCfg, train cwd gen_id a = .ok t ∧
        t.callbacks = [] ∧ t.enable_checkpointing = false ∧ t.logger = none) := by
  constructor
  · intro hfd t ht
    unfold train at ht
    cases hpl : prepare_logger cwd gen_id a with
    | error e => rw [hpl] at ht; cases ht
    | ok lp =>
      obtain ⟨logger, log_path⟩ := lp
      rw [hpl] at ht
      simp only [Except.ok.injEq] at ht
      subst ht
      simp only [hfd]
      refine ⟨rfl, ?_, ?_, ?_⟩
      · exact (match log_path with | none => "None" | some p => p) ++ "/checkpoints"
      · exact (if !(a.pre == "") then a.pre ++ "-" else "") ++
          "\x7bepoch:02d\x7d-\x7bval_f1:.4f\x7d-\x7bval_jaccard:.4f\x7d"
      · cases log_path <;> simp
  · intro hfd
    constructor
    · unfold prepare_logger
      rw [hfd]
      simp
    · refine ⟨{ accelerator := "auto"
                devices := Devices.one
                max_epochs := a.max_epochs
                logger := none
                profiler := none
                callbacks := []
                fast_dev_run := true
                enable_checkpointing := false
                log_every_n_steps := 10 }, ?_, rfl, rfl, rfl⟩
      unfold train prepare_logger
      rw [hfd]
      simp

/-- Witness for C6 at concrete args with `fast_dev_run` set. -/
theorem train_trainer_spec_witness :
    pArgsFDR.fast_dev_run = true ∧
    (prepare_logger "/cwd" "gid" pArgsFDR = .ok (none, none) ∧
      ∃ t : TrainerCfg, train "/cwd" "gid" pArgsFDR = .ok t ∧
        t.callbacks = [] ∧ t.enable_checkpointing = false ∧ t.logger = none) :=
  ⟨rfl, (train_trainer_spec "/cwd" "gid" pArgsFDR).2 rfl⟩
